import Mathlib

/-!
Shallow embedding of the credit-ledger / webhook-reconciliation subsystem of
the `tally_data_extraction` repository.

Source files embedded:
  * `src/database/models.py`   — ORM rows `User`, `Package`, `Purchase`, `CreditUsage`
  * `src/services/database_service.py` — ledger CRUD (`check_user_credits`,
    `deduct_credit`, `add_credits`, `activate_subscription`,
    `deactivate_subscription`, `update_purchase_status`, `log_credit_usage`)
  * `src/services/stripe_service.py` — webhook reconciler
    (`handle_checkout_completed`, `handle_subscription_created`)
  * `src/routers/webhook.py` — background task
    (`process_submission_with_credit_deduction`)

Modelling conventions:
  * `uuid.UUID` keys are modelled as `Nat`; `datetime` values as `Int`
    timestamps; the ambient clock `datetime.utcnow()` is passed explicitly as
    a `now : Int` argument.
  * The database is an in-memory record of row lists.  A SQL
    `UPDATE ... WHERE id = x` is a `List.map` touching every row whose key
    matches (keys are unique primary keys in the schema, so at most one row
    matches in reachable states).
  * `raise ValueError(...)` sites are modelled with `Except DeductError`; the
    two distinct raise sites of `deduct_credit` (distinct messages in the
    source) become the two distinct constructors.
  * Python truthiness (`if package.credits:`) is translated exactly: both
    `None` and `0` are falsy.
-/

namespace Tally

/-- Row of table `users` (`src/database/models.py`, class `User`). -/
structure User where
  id : Nat
  email : String
  credits : Int
  is_unlimited : Bool
  unlimited_expires_at : Option Int
  created_at : Int
  updated_at : Int
deriving Repr, DecidableEq

/-- Row of table `packages` (`src/database/models.py`, class `Package`). -/
structure Package where
  id : Nat
  name : String
  description : String
  package_type : String
  credits : Option Int
  price_gbp : Int
  stripe_price_id : String
  is_active : Bool
  display_order : Int
  created_at : Int
  updated_at : Int
deriving Repr, DecidableEq

/-- Row of table `purchases` (`src/database/models.py`, class `Purchase`). -/
structure Purchase where
  id : Nat
  user_id : Nat
  package_id : Nat
  stripe_session_id : String
  stripe_subscription_id : Option String
  credits_purchased : Option Int
  amount_gbp : Int
  status : String
  purchased_at : Int
deriving Repr, DecidableEq

/-- Row of table `credit_usage` (`src/database/models.py`, class `CreditUsage`). -/
structure CreditUsage where
  id : Nat
  user_id : Nat
  credits_used : Int
  role : String
  trust : String
  submission_id : String
  used_at : Int
deriving Repr, DecidableEq

/-- The persistent store: one list of rows per table touched by the ledger. -/
structure DB where
  users : List User
  packages : List Package
  purchases : List Purchase
  credit_usage : List CreditUsage
deriving Repr, DecidableEq

/-- `database_service.get_user_by_email`: `SELECT ... WHERE email = ...`,
`scalar_one_or_none` (email is a unique column). -/
def get_user_by_email (db : DB) (email : String) : Option User :=
  db.users.find? (fun u => u.email == email)

/-- `database_service.get_user_by_id`: `SELECT ... WHERE id = ...`. -/
def get_user_by_id (db : DB) (user_id : Nat) : Option User :=
  db.users.find? (fun u => u.id == user_id)

/-- `database_service.get_package_by_id`. -/
def get_package_by_id (db : DB) (package_id : Nat) : Option Package :=
  db.packages.find? (fun p => p.id == package_id)

/-- The unlimited-subscription test appearing verbatim in both
`check_user_credits` and `deduct_credit`:
`user.is_unlimited` and (`unlimited_expires_at is None or
unlimited_expires_at > datetime.utcnow()`). -/
def unlimited_active (u : User) (now : Int) : Bool :=
  u.is_unlimited &&
    (match u.unlimited_expires_at with
     | none => true
     | some e => decide (now < e))

/-- `database_service.check_user_credits` (the Entitlement Check):
returns `(has_credits, available_credits)`. -/
def check_user_credits (db : DB) (email : String) (now : Int) : Bool × Int :=
  match get_user_by_email db email with
  | none => (false, 0)
  | some user =>
    if unlimited_active user now then
      (true, -1)
    else
      (decide (0 < user.credits), user.credits)

/-- The two `raise ValueError(...)` sites of `database_service.deduct_credit`,
with their distinct messages: `"User {user_id} not found"` and
`"User {user_id} has insufficient credits"`. -/
inductive DeductError where
  | userNotFound
  | insufficientCredits
deriving Repr, DecidableEq

/-- `database_service.deduct_credit`: early-returns on an unlimited-active
account, raises on a missing account or an insufficient balance, otherwise
issues the relative update
`UPDATE users SET credits = credits - n, updated_at = now WHERE id = user_id`. -/
def deduct_credit (db : DB) (user_id : Nat) (credits : Int) (now : Int) :
    Except DeductError DB :=
  match get_user_by_id db user_id with
  | none => Except.error DeductError.userNotFound
  | some user =>
    if unlimited_active user now then
      Except.ok db
    else if user.credits < credits then
      Except.error DeductError.insufficientCredits
    else
      Except.ok { db with
        users := db.users.map (fun u =>
          if u.id == user_id then
            { u with credits := u.credits - credits, updated_at := now }
          else u) }

/-- `database_service.add_credits`: the unconditional relative update
`UPDATE users SET credits = credits + n, updated_at = now WHERE id = user_id`.
No row is created; a missing id matches zero rows. -/
def add_credits (db : DB) (user_id : Nat) (credits : Int) (now : Int) : DB :=
  { db with
    users := db.users.map (fun u =>
      if u.id == user_id then
        { u with credits := u.credits + credits, updated_at := now }
      else u) }

/-- `database_service.activate_subscription`. -/
def activate_subscription (db : DB) (user_id : Nat) (expires_at : Option Int)
    (now : Int) : DB :=
  { db with
    users := db.users.map (fun u =>
      if u.id == user_id then
        { u with is_unlimited := true, unlimited_expires_at := expires_at,
                 updated_at := now }
      else u) }

/-- `database_service.deactivate_subscription`. -/
def deactivate_subscription (db : DB) (user_id : Nat) (now : Int) : DB :=
  { db with
    users := db.users.map (fun u =>
      if u.id == user_id then
        { u with is_unlimited := false, unlimited_expires_at := none,
                 updated_at := now }
      else u) }

/-- `database_service.log_credit_usage`: pure append of one audit row.  The
fresh `uuid.uuid4()` row id is passed in as `usage_id`. -/
def log_credit_usage (db : DB) (usage_id : Nat) (user_id : Nat)
    (credits_used : Int) (role trust submission_id : String) (now : Int) : DB :=
  { db with
    credit_usage := db.credit_usage ++
      [{ id := usage_id, user_id := user_id, credits_used := credits_used,
         role := role, trust := trust, submission_id := submission_id,
         used_at := now }] }

/-- `database_service.update_purchase_status`: looks the purchase up by the
(unique) Stripe session id, unconditionally overwrites its `status`, and
returns the refreshed row; `none` when no purchase matches. -/
def update_purchase_status (db : DB) (stripe_session_id : String)
    (status : String) : DB × Option Purchase :=
  match db.purchases.find? (fun p => p.stripe_session_id == stripe_session_id) with
  | none => (db, none)
  | some p =>
    ({ db with
       purchases := db.purchases.map (fun q =>
         if q.stripe_session_id == stripe_session_id then
           { q with status := status }
         else q) },
     some { p with status := status })

/-- `stripe_service.handle_checkout_completed`: sets the purchase row to
`"completed"`, then for a one-time package with truthy `credits` calls
`add_credits`.  `session["id"]` and the metadata ids are passed in directly. -/
def handle_checkout_completed (db : DB) (session_id : String)
    (user_id package_id : Nat) (now : Int) : DB :=
  match update_purchase_status db session_id "completed" with
  | (db1, none) => db1
  | (db1, some _) =>
    match get_package_by_id db1 package_id with
    | none => db1
    | some package =>
      if package.package_type == "one_time" then
        match package.credits with
        | some c => if c != 0 then add_credits db1 user_id c now else db1
        | none => db1
      else
        db1

/-- `stripe_service.handle_subscription_created`: resolves the account by the
event's customer email; when the email is missing or no account matches, the
event is logged and dropped; otherwise activates an unlimited subscription
with `expires_at=None`. -/
def handle_subscription_created (db : DB) (customer_email : Option String)
    (now : Int) : DB :=
  match customer_email with
  | none => db
  | some email =>
    match get_user_by_email db email with
    | none => db
    | some user => activate_subscription db user.id none now

/-- `stripe_service.handle_subscription_deleted`. -/
def handle_subscription_deleted (db : DB) (customer_email : Option String)
    (now : Int) : DB :=
  match customer_email with
  | none => db
  | some email =>
    match get_user_by_email db email with
    | none => db
    | some user => deactivate_subscription db user.id now

/-- `webhook.process_submission_with_credit_deduction` (background task).
The generation provider is the oracle argument `gen`: `some text` when
`generate_supporting_info` returns `text`, `none` when it raises.  The fresh
`uuid.uuid4()` values are passed in as `submission_id` and `usage_id`.  The
second component of the result is the supporting-information text the task
goes on to email to the user (`none` when the task returns before the email
step); the email transport itself is an external collaborator. -/
def process_submission_with_credit_deduction (db : DB)
    (email role trust : String) (gen : Option String)
    (submission_id : String) (usage_id : Nat) (now : Int) :
    DB × Option String :=
  match get_user_by_email db email with
  | none => (db, none)
  | some user =>
    match gen with
    | none => (db, none)
    | some supporting_info =>
      let db1 :=
        match deduct_credit db user.id 1 now with
        | Except.ok db' =>
          log_credit_usage db' usage_id user.id 1 role trust submission_id now
        | Except.error _ => db
      (db1, some supporting_info)

/-- Balance of the account row with the given id, when one exists. -/
def balance_of (db : DB) (user_id : Nat) : Option Int :=
  (get_user_by_id db user_id).map (fun u => u.credits)

/-- Status of the purchase row with the given Stripe session id, when one
exists. -/
def purchase_status_of (db : DB) (stripe_session_id : String) : Option String :=
  (db.purchases.find? (fun p => p.stripe_session_id == stripe_session_id)).map
    (fun p => p.status)

/-! ### Concrete states used in scenarios and witnesses -/

/-- The empty store. -/
def empty_db : DB := { users := [], packages := [], purchases := [], credit_usage := [] }

/-- A one-time package granting 5 credits (the "Starter" scenario of the
spec). -/
def starter_package : Package :=
  { id := 2, name := "Starter", description := "5 credits",
    package_type := "one_time", credits := some 5, price_gbp := 1999,
    stripe_price_id := "price_starter", is_active := true, display_order := 0,
    created_at := 0, updated_at := 0 }

/-- The buying account of the C1 scenario, starting at balance 0. -/
def c1_user : User :=
  { id := 1, email := "a@x.com", credits := 0, is_unlimited := false,
    unlimited_expires_at := none, created_at := 0, updated_at := 0 }

/-- The pending purchase of the C1 scenario, Stripe session `cs_1`. -/
def c1_purchase : Purchase :=
  { id := 3, user_id := 1, package_id := 2, stripe_session_id := "cs_1",
    stripe_subscription_id := none, credits_purchased := some 5,
    amount_gbp := 1999, status := "pending", purchased_at := 0 }

/-- Store holding the C1 scenario: one account, one package, one pending
purchase. -/
def c1_db : DB :=
  { users := [c1_user], packages := [starter_package],
    purchases := [c1_purchase], credit_usage := [] }

/-- State after the first delivery of the checkout-completed event for
session `cs_1`. -/
def c1_after_first : DB := handle_checkout_completed c1_db "cs_1" 1 2 10

/-- State after a second, replayed delivery of the same event, arriving when
the purchase is already in status `"completed"`. -/
def c1_after_second : DB := handle_checkout_completed c1_after_first "cs_1" 1 2 20

/-- A metered account with 3 credits, used as a generic witness state. -/
def w_user : User :=
  { id := 7, email := "w@x.com", credits := 3, is_unlimited := false,
    unlimited_expires_at := none, created_at := 0, updated_at := 0 }

/-- Store holding just `w_user`. -/
def w_db : DB := { users := [w_user], packages := [], purchases := [], credit_usage := [] }

/-! ### Helper lemmas on keyed UPDATE-style maps -/

/-- A keyed `UPDATE`-style map commutes with `find?` when the update
preserves the key predicate. -/
theorem find?_map_keyed_update {α : Type} (p : α → Bool) (g : α → α)
    (hg : ∀ a, p a = true → p (g a) = true) (l : List α) :
    (l.map (fun a => if p a then g a else a)).find? p = (l.find? p).map g := by
  induction l with
  | nil => rfl
  | cons a l ih =>
    simp only [List.map_cons]
    by_cases h : p a = true
    · rw [if_pos h, List.find?_cons_of_pos _ (hg a h), List.find?_cons_of_pos _ h,
        Option.map_some']
    · rw [if_neg h, List.find?_cons_of_neg _ h, List.find?_cons_of_neg _ h, ih]

/-- A keyed `UPDATE` that matches no row leaves the table unchanged. -/
theorem map_keyed_update_of_no_match {α : Type} (p : α → Bool) (g : α → α) :
    ∀ l : List α, (∀ x ∈ l, ¬ p x = true) →
      l.map (fun a => if p a then g a else a) = l := by
  intro l
  induction l with
  | nil => intro _; rfl
  | cons a l ih =>
    intro h
    simp only [List.map_cons]
    rw [if_neg (h a (List.mem_cons_self a l)),
      ih (fun x hx => h x (List.mem_cons_of_mem a hx))]

/-! ### Claims -/

/-- Claim C1.  The claim states that a second delivery of the same
checkout-completed event, arriving when the Purchase is already in status
`"completed"`, is a no-op on the account balance.  The code has no guard on
the purchase's prior status: `update_purchase_status` overwrites the status
unconditionally and returns the row, after which `handle_checkout_completed`
credits the package's credits again.  Concretely: the first delivery moves
the balance from 0 to 5 and the purchase to `"completed"`; replaying the
identical event moves the balance to 10 — a double-credit. -/
theorem checkout_completed_replay_double_credits :
    balance_of c1_after_first 1 = some 5 ∧
    purchase_status_of c1_after_first "cs_1" = some "completed" ∧
    balance_of c1_after_second 1 = some 10 := by decide

/-- Claim C2, counterexample.  `add_credits` is a bare relative `UPDATE`
keyed on the user id: on a store with no such account it matches zero rows,
creates nothing, and the balance afterwards is not `n` (no row exists at
all), contradicting the claim's create-if-absent clause. -/
theorem add_credits_absent_account_not_created :
    add_credits empty_db 1 5 0 = empty_db ∧
    balance_of (add_credits empty_db 1 5 0) 1 ≠ some 5 := by decide

/-- Claim C2, amended.  `add_credits` increments the balance of an existing
account by `n` unconditionally (stamping the update timestamp); when no
account with that identifier exists it is a no-op — it does not create the
account (account creation happens separately, via `get_or_create_user` at
checkout initiation). -/
theorem add_credits_spec (db : DB) (user_id : Nat) (n now : Int) :
    (∀ u, get_user_by_id db user_id = some u →
      ∃ u', get_user_by_id (add_credits db user_id n now) user_id = some u' ∧
        u'.credits = u.credits + n ∧ u'.updated_at = now) ∧
    (get_user_by_id db user_id = none → add_credits db user_id n now = db) := by
  constructor
  · intro u hu
    refine ⟨{ u with credits := u.credits + n, updated_at := now }, ?_, rfl, rfl⟩
    unfold get_user_by_id add_credits at *
    rw [find?_map_keyed_update (fun v => v.id == user_id)
      (fun v => { v with credits := v.credits + n, updated_at := now })
      (fun a ha => ha) db.users, hu, Option.map_some']
  · intro h
    unfold get_user_by_id at h
    unfold add_credits
    rw [map_keyed_update_of_no_match _ _ db.users (List.find?_eq_none.mp h)]

/-- Witness for the amended C2: incrementing an existing 3-credit account by
4 yields 7, and crediting an id absent from the empty store is a no-op. -/
theorem add_credits_spec_witness :
    (∃ u', get_user_by_id (add_credits w_db 7 4 9) 7 = some u' ∧
      u'.credits = w_user.credits + 4 ∧ u'.updated_at = 9) ∧
    add_credits empty_db 1 5 0 = empty_db := by
  constructor
  · exact (add_credits_spec w_db 7 4 9).1 w_user (by decide)
  · exact (add_credits_spec empty_db 1 5 0).2 (by decide)

/-- Claim C3, counterexample.  `handle_subscription_created` resolves the
customer email with `get_user_by_email` and, when no account matches, logs
an error and returns without creating anything: on the empty store the event
for `a@x.com` leaves the store unchanged and no account exists afterwards,
contradicting the claim that an account is created and activated. -/
theorem subscription_created_unknown_email_dropped :
    handle_subscription_created empty_db (some "a@x.com") 0 = empty_db ∧
    get_user_by_email (handle_subscription_created empty_db (some "a@x.com") 0)
      "a@x.com" = none := by decide

/-- Claim C3, amended.  A subscription-created event whose customer email has
no existing account is logged as an error and dropped: the store is
unchanged and no account is created.  For an existing account the handler
activates the unlimited subscription: afterwards the account row has
unlimited=true and expiry=null. -/
theorem handle_subscription_created_spec (db : DB) (email : String) (now : Int) :
    (get_user_by_email db email = none →
      handle_subscription_created db (some email) now = db) ∧
    (∀ u, get_user_by_email db email = some u →
      ∃ u', get_user_by_id (handle_subscription_created db (some email) now)
          u.id = some u' ∧
        u'.is_unlimited = true ∧ u'.unlimited_expires_at = none) := by
  constructor
  · intro h
    simp only [handle_subscription_created, h]
  · intro u hu
    have hstep : handle_subscription_created db (some email) now =
        activate_subscription db u.id none now := by
      simp only [handle_subscription_created, hu]
    rw [hstep]
    have hmem : u ∈ db.users := List.mem_of_find?_eq_some hu
    have hex : ∃ w, db.users.find? (fun v => v.id == u.id) = some w := by
      cases hfind : db.users.find? (fun v => v.id == u.id) with
      | some w => exact ⟨w, rfl⟩
      | none =>
        have hcontra := List.find?_eq_none.mp hfind u hmem
        simp at hcontra
    obtain ⟨w, hw⟩ := hex
    refine ⟨{ w with is_unlimited := true,
                     unlimited_expires_at := none, updated_at := now },
      ?_, rfl, rfl⟩
    unfold activate_subscription get_user_by_id
    rw [find?_map_keyed_update (fun v => v.id == u.id)
      (fun v => { v with is_unlimited := true,
                          unlimited_expires_at := none, updated_at := now })
      (fun a ha => ha) db.users, hw, Option.map_some']

/-- Witness for the amended C3: on the empty store the event for an unknown
email is dropped; on a store holding `w_user` the event for `w@x.com` sets
unlimited=true with expiry=null on that account. -/
theorem handle_subscription_created_spec_witness :
    handle_subscription_created empty_db (some "n@x.com") 0 = empty_db ∧
    (∃ u', get_user_by_id (handle_subscription_created w_db (some "w@x.com") 5)
        7 = some u' ∧
      u'.is_unlimited = true ∧ u'.unlimited_expires_at = none) := by
  constructor
  · exact (handle_subscription_created_spec empty_db "n@x.com" 0).1 (by decide)
  · exact (handle_subscription_created_spec w_db "w@x.com" 5).2 w_user (by decide)

/-- An unlimited account with no expiry, balance 0. -/
def unl_user : User :=
  { id := 8, email := "u@x.com", credits := 0, is_unlimited := true,
    unlimited_expires_at := none, created_at := 0, updated_at := 0 }

/-- An account with unlimited=true but expiry at time 5, balance 2: metered
once `now` passes 5. -/
def exp_user : User :=
  { id := 9, email := "e@x.com", credits := 2, is_unlimited := true,
    unlimited_expires_at := some 5, created_at := 0, updated_at := 0 }

/-- Store holding the two subscription accounts. -/
def sub_db : DB :=
  { users := [unl_user, exp_user], packages := [], purchases := [],
    credit_usage := [] }

/-- The boolean unlimited-active test agrees with its propositional
reading: flag set, and expiry unset or strictly after `now`. -/
theorem unlimited_active_eq_true_iff (u : User) (now : Int) :
    unlimited_active u now = true ↔
      u.is_unlimited = true ∧
        (u.unlimited_expires_at = none ∨
          ∃ e, u.unlimited_expires_at = some e ∧ now < e) := by
  unfold unlimited_active
  cases h : u.unlimited_expires_at with
  | none => simp [h]
  | some e => simp [h]

/-- Claim C4.  The Entitlement Check returns, in order: `(false, 0)` when no
account with the email exists; `(true, -1)` when the account's unlimited
flag is set and the expiry is unset or strictly after `now`; and otherwise
`(balance > 0, balance)` — in particular an account whose unlimited flag is
set but whose expiry is ≤ `now` falls through to the metered rule and its
stored balance decides the result. -/
theorem check_user_credits_spec (db : DB) (email : String) (now : Int) :
    (get_user_by_email db email = none →
      check_user_credits db email now = (false, 0)) ∧
    (∀ u, get_user_by_email db email = some u → u.is_unlimited = true →
      (u.unlimited_expires_at = none ∨
        ∃ e, u.unlimited_expires_at = some e ∧ now < e) →
      check_user_credits db email now = (true, -1)) ∧
    (∀ u, get_user_by_email db email = some u →
      (u.is_unlimited = false ∨
        ∃ e, u.unlimited_expires_at = some e ∧ e ≤ now) →
      check_user_credits db email now = (decide (0 < u.credits), u.credits)) := by
  refine ⟨?_, ?_, ?_⟩
  · intro h
    simp only [check_user_credits, h]
  · intro u hu hflag hexp
    have hact : unlimited_active u now = true :=
      (unlimited_active_eq_true_iff u now).mpr ⟨hflag, hexp⟩
    simp [check_user_credits, hu, hact]
  · intro u hu hmet
    have hact : unlimited_active u now = false := by
      unfold unlimited_active
      rcases hmet with hf | ⟨e, he, hle⟩
      · simp [hf]
      · simp [he, not_lt.mpr hle]
    simp [check_user_credits, hu, hact]

/-- Witness for C4: on the empty store the check returns `(false, 0)`; for
the never-expiring unlimited account it returns `(true, -1)`; for the
account whose unlimited expiry (time 5) is before `now = 10` it returns the
metered answer `(true, 2)` from the stored balance 2. -/
theorem check_user_credits_spec_witness :
    check_user_credits empty_db "a@x.com" 0 = (false, 0) ∧
    check_user_credits sub_db "u@x.com" 0 = (true, -1) ∧
    check_user_credits sub_db "e@x.com" 10 = (true, 2) := by
  refine ⟨(check_user_credits_spec empty_db "a@x.com" 0).1 (by decide),
    (check_user_credits_spec sub_db "u@x.com" 0).2.1 unl_user (by decide) rfl
      (Or.inl rfl), ?_⟩
  have h := (check_user_credits_spec sub_db "e@x.com" 10).2.2 exp_user
    (by decide) (Or.inr ⟨5, rfl, by decide⟩)
  rw [h]
  rfl

/-- Claim C5.  For an existing account: `deduct_credit` fails with the
insufficient-credits error exactly when the account is not unlimited-active
and its balance is below `n`; on an unlimited-active account it returns the
store unchanged (no row mutation); otherwise it succeeds, decrementing the
balance by `n` and stamping the update timestamp. -/
theorem deduct_credit_spec (db : DB) (user_id : Nat) (n now : Int) (u : User)
    (hu : get_user_by_id db user_id = some u) :
    (deduct_credit db user_id n now =
        Except.error DeductError.insufficientCredits ↔
      unlimited_active u now = false ∧ u.credits < n) ∧
    (unlimited_active u now = true →
      deduct_credit db user_id n now = Except.ok db) ∧
    (unlimited_active u now = false → n ≤ u.credits →
      ∃ db' u', deduct_credit db user_id n now = Except.ok db' ∧
        get_user_by_id db' user_id = some u' ∧
        u'.credits = u.credits - n ∧ u'.updated_at = now) := by
  refine ⟨⟨?_, ?_⟩, ?_, ?_⟩
  · intro hres
    simp only [deduct_credit, hu] at hres
    by_cases ha : unlimited_active u now = true
    · rw [if_pos ha] at hres
      exact Except.noConfusion hres
    · rw [if_neg ha] at hres
      by_cases hc : u.credits < n
      · exact ⟨Bool.eq_false_iff.mpr ha, hc⟩
      · rw [if_neg hc] at hres
        exact Except.noConfusion hres
  · rintro ⟨ha, hc⟩
    simp only [deduct_credit, hu]
    rw [if_neg (by simp [ha]), if_pos hc]
  · intro ha
    simp only [deduct_credit, hu]
    rw [if_pos ha]
  · intro ha hc
    refine ⟨{ db with users := db.users.map (fun v =>
          if v.id == user_id then
            { v with credits := v.credits - n, updated_at := now }
          else v) },
      { u with credits := u.credits - n, updated_at := now },
      ?_, ?_, rfl, rfl⟩
    · simp only [deduct_credit, hu]
      rw [if_neg (by simp [ha]), if_neg (not_lt.mpr hc)]
    · unfold get_user_by_id
      rw [find?_map_keyed_update (fun v => v.id == user_id)
        (fun v => { v with credits := v.credits - n, updated_at := now })
        (fun a ha' => ha') db.users]
      unfold get_user_by_id at hu
      rw [hu, Option.map_some']

/-- Witness for C5: debiting 5 from the 3-credit metered account fails with
the insufficient-credits error; debiting the unlimited account returns the
store unchanged; debiting 2 from the 3-credit account succeeds leaving
balance 1 and the new timestamp. -/
theorem deduct_credit_spec_witness :
    deduct_credit w_db 7 5 0 = Except.error DeductError.insufficientCredits ∧
    deduct_credit sub_db 8 1 0 = Except.ok sub_db ∧
    (∃ db' u', deduct_credit w_db 7 2 9 = Except.ok db' ∧
      get_user_by_id db' 7 = some u' ∧
      u'.credits = w_user.credits - 2 ∧ u'.updated_at = 9) :=
  ⟨((deduct_credit_spec w_db 7 5 0 w_user (by decide)).1).mpr
      ⟨by decide, by decide⟩,
    (deduct_credit_spec sub_db 8 1 0 unl_user (by decide)).2.1 (by decide),
    (deduct_credit_spec w_db 7 2 9 w_user (by decide)).2.2 (by decide)
      (by decide)⟩

/-! ### Sequences of Deduction/Grant Engine calls (claim C6) -/

/-- A call to the Deduction/Grant Engine: a debit or credit of a number of
credits (a count, hence `Nat`) against an account id. -/
inductive LedgerOp where
  | debit (user_id : Nat) (n : Nat)
  | credit (user_id : Nat) (n : Nat)
deriving Repr, DecidableEq

/-- One engine call against the store: a debit that raises leaves the store
unchanged (the exception aborts before any `UPDATE`). -/
def apply_op (db : DB) (op : LedgerOp) (now : Int) : DB :=
  match op with
  | LedgerOp.debit uid n =>
    match deduct_credit db uid (n : Int) now with
    | Except.ok db' => db'
    | Except.error _ => db
  | LedgerOp.credit uid n => add_credits db uid (n : Int) now

/-- Run a finite sequence of engine calls left to right. -/
def run_ops (db : DB) (ops : List LedgerOp) (now : Int) : DB :=
  match ops with
  | [] => db
  | op :: rest => run_ops (apply_op db op now) rest now

/-- The `debit` precondition at the moment of the call: the targeted account
exists and is unlimited-active, or its balance covers the debit.  Credits
have no precondition. -/
def debit_precond (db : DB) (op : LedgerOp) (now : Int) : Bool :=
  match op with
  | LedgerOp.debit uid n =>
    match get_user_by_id db uid with
    | some u => unlimited_active u now || decide ((n : Int) ≤ u.credits)
    | none => false
  | LedgerOp.credit _ _ => true

/-- Every debit of the sequence satisfies its precondition in the state in
which it actually executes. -/
def ops_respect_precond (db : DB) (ops : List LedgerOp) (now : Int) : Bool :=
  match ops with
  | [] => true
  | op :: rest =>
    debit_precond db op now && ops_respect_precond (apply_op db op now) rest now

/-- Every account balance in the store is nonnegative. -/
def balances_nonneg (db : DB) : Prop := ∀ u ∈ db.users, 0 ≤ u.credits

/-- A keyed `UPDATE`-style map leaves any field the update preserves
pointwise unchanged across the table. -/
theorem map_keyed_update_map_field {α β : Type} (p : α → Bool) (g : α → α)
    (f : α → β) (hg : ∀ a, f (g a) = f a) (l : List α) :
    (l.map (fun a => if p a then g a else a)).map f = l.map f := by
  induction l with
  | nil => rfl
  | cons a l ih =>
    simp only [List.map_cons, ih]
    by_cases h : p a = true
    · rw [if_pos h, hg]
    · rw [if_neg h]

/-- Shape of a successful `deduct_credit`: either the unlimited-active early
return (store unchanged) or the single-key relative `UPDATE`. -/
theorem deduct_credit_ok_cases (db : DB) (uid : Nat) (n now : Int) (db' : DB)
    (h : deduct_credit db uid n now = Except.ok db') :
    db' = db ∨
    (∃ u, get_user_by_id db uid = some u ∧ unlimited_active u now = false ∧
      n ≤ u.credits ∧
      db' = { db with users := db.users.map (fun v =>
        if v.id == uid then
          { v with credits := v.credits - n, updated_at := now }
        else v) }) := by
  cases hfind : get_user_by_id db uid with
  | none =>
    simp only [deduct_credit, hfind] at h
    exact Except.noConfusion h
  | some u =>
    simp only [deduct_credit, hfind] at h
    by_cases ha : unlimited_active u now = true
    · rw [if_pos ha] at h
      injection h with h2
      exact Or.inl h2.symm
    · rw [if_neg ha] at h
      by_cases hc : u.credits < n
      · rw [if_pos hc] at h
        exact Except.noConfusion h
      · rw [if_neg hc] at h
        injection h with h2
        exact Or.inr ⟨u, rfl, Bool.eq_false_iff.mpr ha, not_lt.mp hc, h2.symm⟩

/-- An engine call never changes the multiset of account ids (every mutation
is a keyed `UPDATE`, never an insert or delete). -/
theorem apply_op_ids (db : DB) (op : LedgerOp) (now : Int) :
    (apply_op db op now).users.map User.id = db.users.map User.id := by
  cases op with
  | debit uid n =>
    cases hded : deduct_credit db uid (n : Int) now with
    | error e => simp only [apply_op, hded]
    | ok db' =>
      simp only [apply_op, hded]
      rcases deduct_credit_ok_cases db uid (n : Int) now db' hded with
        h | ⟨u, _, _, _, h⟩
      · rw [h]
      · rw [h]
        exact map_keyed_update_map_field (fun v => v.id == uid)
          (fun v => { v with credits := v.credits - (n : Int), updated_at := now })
          User.id (fun a => rfl) db.users
  | credit uid n =>
    simp only [apply_op, add_credits]
    exact map_keyed_update_map_field (fun v => v.id == uid)
      (fun v => { v with credits := v.credits + (n : Int), updated_at := now })
      User.id (fun a => rfl) db.users

/-- One engine call preserves nonnegativity of all balances, given that
account ids are unique (they are the table's primary key): a debit only
issues its `UPDATE` when the targeted row's balance covers it, and a credit
adds a nonnegative amount. -/
theorem apply_op_nonneg (db : DB) (op : LedgerOp) (now : Int)
    (hids : (db.users.map User.id).Nodup)
    (h0 : balances_nonneg db) :
    balances_nonneg (apply_op db op now) := by
  cases op with
  | credit uid n =>
    intro w hw
    unfold apply_op add_credits at hw
    rcases List.mem_map.mp hw with ⟨v, hv, rfl⟩
    by_cases h : (v.id == uid) = true
    · simp only [if_pos h]
      exact add_nonneg (h0 v hv) (Int.natCast_nonneg n)
    · simp only [if_neg h]
      exact h0 v hv
  | debit uid n =>
    cases hded : deduct_credit db uid (n : Int) now with
    | error e =>
      intro w hw
      simp only [apply_op, hded] at hw
      exact h0 w hw
    | ok db' =>
      intro w hw
      simp only [apply_op, hded] at hw
      rcases deduct_credit_ok_cases db uid (n : Int) now db' hded with
        hsh | ⟨u, hu, hna, hc, hsh⟩
      · rw [hsh] at hw
        exact h0 w hw
      · rw [hsh] at hw
        rcases List.mem_map.mp hw with ⟨v, hv, rfl⟩
        by_cases h : (v.id == uid) = true
        · simp only [if_pos h]
          have hvu : v = u := by
            have hu' : db.users.find? (fun x => x.id == uid) = some u := hu
            have humem : u ∈ db.users := List.mem_of_find?_eq_some hu'
            have hup0 := List.find?_some hu'
            have hup : (u.id == uid) = true := hup0
            exact List.inj_on_of_nodup_map hids hv humem
              (by rw [beq_iff_eq] at h hup; rw [h, hup])
          subst hvu
          exact sub_nonneg.mpr hc
        · simp only [if_neg h]
          exact h0 v hv

/-- Claim C6.  Starting from a store with unique account ids and all
balances nonnegative, after any finite sequence of debit/credit engine calls
in which each debit individually satisfies its precondition at the time of
the call, every account balance is still nonnegative.  (The precondition
hypothesis is stated as the claim states it; nonnegativity in fact survives
even failed debits, since a failing `deduct_credit` raises before its
`UPDATE`.) -/
theorem run_ops_nonneg (db : DB) (ops : List LedgerOp) (now : Int)
    (hids : (db.users.map User.id).Nodup)
    (hpre : ops_respect_precond db ops now = true)
    (h0 : balances_nonneg db) :
    balances_nonneg (run_ops db ops now) := by
  induction ops generalizing db with
  | nil => exact h0
  | cons op rest ih =>
    unfold run_ops
    unfold ops_respect_precond at hpre
    rw [Bool.and_eq_true] at hpre
    exact ih (apply_op db op now)
      (by rw [apply_op_ids]; exact hids)
      hpre.2
      (apply_op_nonneg db op now hids h0)

/-- Witness for C6: on the 3-credit account, the sequence debit 2, credit 4,
debit 5 respects every debit precondition and ends with all balances
nonnegative. -/
theorem run_ops_nonneg_witness :
    balances_nonneg (run_ops w_db
      [LedgerOp.debit 7 2, LedgerOp.credit 7 4, LedgerOp.debit 7 5] 0) :=
  run_ops_nonneg w_db
    [LedgerOp.debit 7 2, LedgerOp.credit 7 4, LedgerOp.debit 7 5] 0
    (by decide) (by decide)
    (show ∀ u ∈ w_db.users, 0 ≤ u.credits by decide)

/-- Claim C7.  When the generation unit of work fails (the call to the
generation provider raises), the background task returns before the debit,
the audit append and the delivery step: the store is exactly the input store
(no debit, no balance change, no usage record) and nothing is delivered. -/
theorem generation_failure_no_charge (db : DB)
    (email role trust submission_id : String) (usage_id : Nat) (now : Int) :
    process_submission_with_credit_deduction db email role trust none
      submission_id usage_id now = (db, none) := by
  cases h : get_user_by_email db email with
  | none => simp only [process_submission_with_credit_deduction, h]
  | some u => simp only [process_submission_with_credit_deduction, h]

/-- Claim C8.  When the debit raises the insufficient-credits error after a
successful generation, the condition is non-fatal: the deduction and the
audit append are skipped (the store is unchanged) and the flow continues to
the delivery step with the already-generated text. -/
theorem ledger_inconsistency_still_delivers (db : DB)
    (email role trust submission_id : String) (usage_id : Nat) (now : Int)
    (text : String) (u : User)
    (hu : get_user_by_email db email = some u)
    (hded : deduct_credit db u.id 1 now =
      Except.error DeductError.insufficientCredits) :
    process_submission_with_credit_deduction db email role trust (some text)
      submission_id usage_id now = (db, some text) := by
  simp only [process_submission_with_credit_deduction, hu, hded]

/-- A metered account with balance 0, for the ledger-inconsistency
scenario. -/
def broke_user : User :=
  { id := 11, email := "b@x.com", credits := 0, is_unlimited := false,
    unlimited_expires_at := none, created_at := 0, updated_at := 0 }

/-- Store holding just `broke_user`. -/
def broke_db : DB :=
  { users := [broke_user], packages := [], purchases := [], credit_usage := [] }

/-- Witness for C8: on the zero-balance account the debit raises, yet the
generated statement is still handed to the delivery step and the store is
unchanged. -/
theorem ledger_inconsistency_still_delivers_witness :
    process_submission_with_credit_deduction broke_db "b@x.com" "Nurse"
      "Some Trust" (some "statement") "sub-1" 99 0 =
      (broke_db, some "statement") :=
  ledger_inconsistency_still_delivers broke_db "b@x.com" "Nurse" "Some Trust"
    "sub-1" 99 0 "statement" broke_user (by decide) rfl

/-- Claim C9.  `deduct_credit` on an account id with no matching account
fails with the user-not-found error — a constructor distinct from the
insufficient-credits error — and produces no successor store at all (no
`Except.ok`), so every account row is left as it was. -/
theorem deduct_credit_user_not_found (db : DB) (user_id : Nat) (n now : Int)
    (h : get_user_by_id db user_id = none) :
    deduct_credit db user_id n now = Except.error DeductError.userNotFound ∧
    DeductError.userNotFound ≠ DeductError.insufficientCredits ∧
    ∀ db', deduct_credit db user_id n now ≠ Except.ok db' := by
  have he : deduct_credit db user_id n now =
      Except.error DeductError.userNotFound := by
    simp only [deduct_credit, h]
  refine ⟨he, by decide, ?_⟩
  intro db' hok
  rw [he] at hok
  exact Except.noConfusion hok

/-- Witness for C9: on the empty store, debiting account 1 fails with the
user-not-found error and has no success outcome. -/
theorem deduct_credit_user_not_found_witness :
    deduct_credit empty_db 1 1 0 = Except.error DeductError.userNotFound ∧
    DeductError.userNotFound ≠ DeductError.insufficientCredits ∧
    ∀ db', deduct_credit empty_db 1 1 0 ≠ Except.ok db' :=
  deduct_credit_user_not_found empty_db 1 1 0 (by decide)

/-- Row-wise frame relation for claim C10: the row's id, email, unlimited
flag, expiry and creation timestamp are unchanged, and a row whose id is not
the targeted one is unchanged in every field. -/
def user_frame (target : Nat) (u v : User) : Prop :=
  v.id = u.id ∧ v.email = u.email ∧ v.is_unlimited = u.is_unlimited ∧
  v.unlimited_expires_at = u.unlimited_expires_at ∧
  v.created_at = u.created_at ∧ (u.id ≠ target → v = u)

/-- Store-wise frame relation for claim C10: rows correspond positionally
under `user_frame`, and the packages, purchases and audit tables are
untouched. -/
def db_frame (target : Nat) (db db' : DB) : Prop :=
  List.Forall₂ (user_frame target) db.users db'.users ∧
  db'.packages = db.packages ∧ db'.purchases = db.purchases ∧
  db'.credit_usage = db.credit_usage

/-- A keyed `UPDATE`-style map whose update preserves id, email, unlimited
flag, expiry and creation timestamp is row-wise frame-preserving. -/
theorem forall₂_keyed_update (target : Nat) (g : User → User)
    (hid : ∀ u, (g u).id = u.id) (hemail : ∀ u, (g u).email = u.email)
    (hunl : ∀ u, (g u).is_unlimited = u.is_unlimited)
    (hexp : ∀ u, (g u).unlimited_expires_at = u.unlimited_expires_at)
    (hcr : ∀ u, (g u).created_at = u.created_at) (l : List User) :
    List.Forall₂ (user_frame target) l
      (l.map (fun u => if u.id == target then g u else u)) := by
  rw [List.forall₂_map_right_iff, List.forall₂_same]
  intro u _
  by_cases h : (u.id == target) = true
  · rw [if_pos h]
    exact ⟨hid u, hemail u, hunl u, hexp u, hcr u,
      fun hne => absurd (beq_iff_eq.mp h) hne⟩
  · rw [if_neg h]
    exact ⟨rfl, rfl, rfl, rfl, rfl, fun _ => rfl⟩

/-- Claim C10.  Both engine mutations satisfy the frame condition: a credit,
and any successful debit, change at most the targeted row's balance and
update timestamp; every other field of the targeted row, every other row,
and the packages, purchases and audit tables are unchanged. -/
theorem debit_credit_frame (db : DB) (user_id : Nat) (n now : Int) :
    db_frame user_id db (add_credits db user_id n now) ∧
    (∀ db', deduct_credit db user_id n now = Except.ok db' →
      db_frame user_id db db') := by
  constructor
  · refine ⟨?_, rfl, rfl, rfl⟩
    exact forall₂_keyed_update user_id
      (fun v => { v with credits := v.credits + n, updated_at := now })
      (fun u => rfl) (fun u => rfl) (fun u => rfl) (fun u => rfl) (fun u => rfl)
      db.users
  · intro db' h
    rcases deduct_credit_ok_cases db user_id n now db' h with
      rfl | ⟨u, _, _, _, rfl⟩
    · exact ⟨List.forall₂_same.mpr
        (fun u _ => ⟨rfl, rfl, rfl, rfl, rfl, fun _ => rfl⟩), rfl, rfl, rfl⟩
    · refine ⟨?_, rfl, rfl, rfl⟩
      exact forall₂_keyed_update user_id
        (fun v => { v with credits := v.credits - n, updated_at := now })
        (fun u => rfl) (fun u => rfl) (fun u => rfl) (fun u => rfl)
        (fun u => rfl) db.users

/-- The successor store of the witness debit: balance 3 − 2 = 1, fresh
timestamp, everything else as in `w_db`. -/
def w_db_after_debit : DB :=
  { users := [{ w_user with credits := 1, updated_at := 9 }],
    packages := [], purchases := [], credit_usage := [] }

/-- Witness for C10: crediting 4 to account 7 and debiting 2 from account 7
both satisfy the frame relation on the concrete one-account store. -/
theorem debit_credit_frame_witness :
    db_frame 7 w_db (add_credits w_db 7 4 9) ∧
    db_frame 7 w_db w_db_after_debit :=
  ⟨(debit_credit_frame w_db 7 4 9).1,
    (debit_credit_frame w_db 7 2 9).2 w_db_after_debit rfl⟩

end Tally
